import Mathlib

/-!
Verification of `constrained_ik`'s obstacle-avoidance constraint
(`src/constrained_ik/src/constraints/avoid_obstacles.cpp`).

The C++ class `AvoidObstacles` evaluates, per configured link, a scalar
repulsion error, a 1×N Jacobian row and a stop/continue status from a
per-iteration proximity snapshot.  The definitions below are a shallow
embedding of that file: machine doubles are modelled as real numbers, the
per-iteration `AvoidObstaclesData` snapshot (whose constructor performs the
external collision query) is modelled as the resulting data, and the external
KDL Jacobian solver is an abstract function stored per link.
-/

/-- `DEFAULT_WEIGHT` of avoid_obstacles.cpp. -/
def DEFAULT_WEIGHT : ℝ := 1

/-- `DEFAULT_MIN_DISTANCE` of avoid_obstacles.cpp. -/
noncomputable def DEFAULT_MIN_DISTANCE : ℝ := 1 / 10

/-- `DEFAULT_AVOIDANCE_DISTANCE` of avoid_obstacles.cpp. -/
noncomputable def DEFAULT_AVOIDANCE_DISTANCE : ℝ := 3 / 10

/-- `DEFAULT_AMPLITUDE` of avoid_obstacles.cpp. -/
noncomputable def DEFAULT_AMPLITUDE : ℝ := 3 / 10

/-- `DEFAULT_SHIFT` of avoid_obstacles.cpp. -/
def DEFAULT_SHIFT : ℝ := 5

/-- `DEFAULT_ZERO_POINT` of avoid_obstacles.cpp. -/
def DEFAULT_ZERO_POINT : ℝ := 10

/-- One entry of `CollisionRobotFCLDetailed::DistanceInfoMap`, as consumed by
avoid_obstacles.cpp: the closest distance, the closest point on the link
(`link_point`, already transformed into the chain base frame) and the unit
avoidance direction (`avoidance_vector`). -/
structure DistanceInfo where
  distance : ℝ
  link_point : Fin 3 → ℝ
  avoidance_vector : Fin 3 → ℝ

/-- The external KDL `ChainJntToJacSolver` bound to a link's sub-chain,
modelled abstractly: from a joint array it yields a 6×K Jacobian, indexed
(row, column); rows 0-2 are the linear-velocity block and rows 3-5 the
angular-velocity block, exactly as `BasicKin::KDLToEigen` lays the KDL
Jacobian out. -/
def JacSolver : Type := (ℕ → ℝ) → ℕ → ℕ → ℝ

/-- `AvoidObstacles::LinkAvoidance`: the per-link configuration.  In the C++
constructor `jac_solver_` starts as a null pointer; here it is an arbitrary
function until `init` stores the solver of the resolved sub-chain. -/
structure LinkAvoidance where
  weight_ : ℝ
  min_distance_ : ℝ
  avoidance_distance_ : ℝ
  amplitude_ : ℝ
  num_robot_joints_ : ℕ
  num_inboard_joints_ : ℕ
  jac_solver_ : JacSolver
  link_name_ : String

/-- The `LinkAvoidance(std::string link_name)` constructor: default
parameters; `num_robot_joints_` and `num_inboard_joints_` are not in the
C++ initializer list and are only given values by `init`, so 0 stands for
their indeterminate start value. -/
noncomputable def LinkAvoidance.mkDefault (link_name : String) : LinkAvoidance :=
  { weight_ := DEFAULT_WEIGHT
    min_distance_ := DEFAULT_MIN_DISTANCE
    avoidance_distance_ := DEFAULT_AVOIDANCE_DISTANCE
    amplitude_ := DEFAULT_AMPLITUDE
    num_robot_joints_ := 0
    num_inboard_joints_ := 0
    jac_solver_ := fun _ _ _ => 0
    link_name_ := link_name }

/-- `AvoidObstacles::AvoidObstaclesData`, the per-`evalConstraint` snapshot.
Its C++ constructor performs the one `distanceSelfDetailed` collision query
and transforms the results into the base frame; the embedding takes the
resulting joint state (`state_.joints`) and per-link distance info map as
given data. -/
structure AvoidObstaclesData where
  state_joints : ℕ → ℝ
  distance_info_map_ : String → Option DistanceInfo

/-- The avoid-obstacles constraint's own state: the configured link names,
the map of per-link configurations (`std::map<std::string, LinkAvoidance>`,
modelled as an association list), the link models retained for the collision
query, and the validity flag `initialized_`, named `valid_` in this
embedding. -/
structure AvoidObstacles where
  link_names_ : List String
  links_ : List (String × LinkAvoidance)
  link_models_ : List String
  valid_ : Bool

/-- Lookup in the `std::map` modelled as an association list. -/
def mapFind {α : Type} (k : String) : List (String × α) → Option α
  | [] => none
  | p :: rest => if k = p.1 then some p.2 else mapFind k rest

/-- In-place update of one entry of the map (the effect of writing through
`links_.find(name)`); a missing key leaves the map unchanged. -/
def mapUpdate {α : Type} (k : String) (f : α → α) (m : List (String × α)) :
    List (String × α) :=
  m.map (fun p => if p.1 = k then (p.1, f p.2) else p)

namespace AvoidObstacles

/-- `AvoidObstacles::calcError`.  `dist_err.resize(1,1)` leaves the single
Eigen coefficient uninitialized; the parameter `uninit` stands for that
indeterminate memory content, which the function returns untouched when the
link has no entry in the distance info map. -/
noncomputable def calcError (uninit : ℝ) (cdata : AvoidObstaclesData)
    (link : LinkAvoidance) : List ℝ :=
  match cdata.distance_info_map_ link.link_name_ with
  | some di =>
      let scale_x := link.avoidance_distance_ / (DEFAULT_ZERO_POINT + DEFAULT_SHIFT)
      let scale_y := link.amplitude_
      [scale_y / (1 + Real.exp (di.distance / scale_x - DEFAULT_SHIFT))]
  | none => [uninit]

/-- `AvoidObstacles::checkStatus`: false exactly when the link has distance
info and its distance is below the link's `min_distance_`. -/
noncomputable def checkStatus (cdata : AvoidObstaclesData)
    (link : LinkAvoidance) : Bool :=
  match cdata.distance_info_map_ link.link_name_ with
  | some di => if di.distance < link.min_distance_ then false else true
  | none => true

end AvoidObstacles

/-- The KDL cross product `rot * v` used by `Twist::RefPoint`. -/
def cross (a b : Fin 3 → ℝ) : Fin 3 → ℝ :=
  ![a 1 * b 2 - a 2 * b 1, a 2 * b 0 - a 0 * b 2, a 0 * b 1 - a 1 * b 0]

/-- The dot product `avoidance_vector.transpose() * column` over the three
linear-velocity rows. -/
def dot3 (a b : Fin 3 → ℝ) : ℝ := a 0 * b 0 + a 1 * b 1 + a 2 * b 2

namespace AvoidObstacles

/-- The single row of the 1×`num_robot_joints_` matrix built by
`AvoidObstacles::calcJacobian`.  With distance info present: the joint array
holds the first `num_inboard_joints_` entries of the snapshot's joint state
(a KDL `JntArray` of exactly that size, so indices past it read as 0); the
sub-chain solver yields the 6×K Jacobian; `changeRefPoint(link_point)` adds
the cross product of each angular-velocity column with `link_point` to the
linear-velocity column; the top three rows are projected onto
`avoidance_vector` and written into the first `num_inboard_joints_` columns
of the zero-initialized row.  Without distance info the row stays the zero
row left by `jacobian.setZero(1, num_robot_joints_)`. -/
noncomputable def calcJacobianRow (cdata : AvoidObstaclesData)
    (link : LinkAvoidance) : List ℝ :=
  match cdata.distance_info_map_ link.link_name_ with
  | some di =>
      let joint_array : ℕ → ℝ := fun i =>
        if i < link.num_inboard_joints_ then cdata.state_joints i else 0
      let link_jacobian := link.jac_solver_ joint_array
      let rebased_linear : Fin 3 → ℕ → ℝ := fun r c =>
        link_jacobian r.val c +
          cross (fun k => link_jacobian (k.val + 3) c) di.link_point r
      (List.range link.num_robot_joints_).map (fun j =>
        if j < link.num_inboard_joints_ then
          dot3 di.avoidance_vector (fun k => rebased_linear k j)
        else 0)
  | none => List.replicate link.num_robot_joints_ 0

/-- `AvoidObstacles::calcJacobian` returns the 1×`num_robot_joints_`
Eigen matrix, here a one-row list of rows. -/
noncomputable def calcJacobian (cdata : AvoidObstaclesData)
    (link : LinkAvoidance) : List (List ℝ) :=
  [calcJacobianRow cdata link]

end AvoidObstacles

/-- `constrained_ik::ConstraintResults` as the constraint framework defines
it outside this file.  Modelled from the spec: the output carries the stacked
error vector, the stacked Jacobian rows and the AND of the per-link statuses;
a default-constructed result is empty with status true, and `append` stacks
errors and rows and ANDs the statuses. -/
structure ConstraintResults where
  error : List ℝ
  jacobian : List (List ℝ)
  status : Bool

/-- Modelled from the spec: the default-constructed (empty) result. -/
def ConstraintResults.empty : ConstraintResults := ⟨[], [], true⟩

/-- Modelled from the spec: `ConstraintResults::append` stacks the error
entries and Jacobian rows and ANDs the statuses. -/
def ConstraintResults.append (a b : ConstraintResults) : ConstraintResults :=
  ⟨a.error ++ b.error, a.jacobian ++ b.jacobian, a.status && b.status⟩

namespace AvoidObstacles

/-- The body of the per-link loop of `AvoidObstacles::evalConstraint`: build
one per-link result from `calcError`, `calcJacobian`, `checkStatus` and
append it to the running output. -/
noncomputable def evalStep (uninit : ℝ) (cdata : AvoidObstaclesData)
    (output : ConstraintResults) (p : String × LinkAvoidance) :
    ConstraintResults :=
  output.append ⟨calcError uninit cdata p.2, calcJacobian cdata p.2,
    checkStatus cdata p.2⟩

/-- `AvoidObstacles::evalConstraint`: iterate over the configured `links_`
map, folding the per-link results into one output.  The function reads
nothing but `links_` from the constraint; in particular it never consults
the validity flag set by `init`. -/
noncomputable def evalConstraint (uninit : ℝ) (cdata : AvoidObstaclesData)
    (c : AvoidObstacles) : ConstraintResults :=
  c.links_.foldl (evalStep uninit cdata) ConstraintResults.empty

end AvoidObstacles

/-- What `init` reads from the solver handle (`Constrained_IK` / `BasicKin`):
the chain's link names (`getLinkNames`), the full joint count (`numJoints`),
sub-chain resolution (`getSubChain`, `none` on failure, otherwise the
sub-chain's `getNrOfJoints`), the Jacobian solver constructed for a resolved
sub-chain, and the joint model group's link models (by name). -/
structure ChainInfo where
  linkNames : List String
  numJoints : ℕ
  subChainJoints : String → Option ℕ
  subChainSolver : String → JacSolver
  chainLinkModels : List String

/-- The warning `init` logs when no links were specified. -/
def noLinksWarn : String :=
  "Avoid Obstacles: No links were specified therefore using all links in kinematic chain."

namespace AvoidObstacles

/-- The per-link loop of `AvoidObstacles::init`: store `numJoints` into each
entry, resolve its sub-chain, and on the first failure return false at once
(the C++ `return` after setting `initialized_ = false`), leaving the
remaining entries untouched.  On success store the sub-chain joint count and
the new `ChainJntToJacSolver`. -/
def initLinksGo (ik : ChainInfo) :
    List (String × LinkAvoidance) → List (String × LinkAvoidance) × Bool
  | [] => ([], true)
  | p :: rest =>
      let v1 := { p.2 with num_robot_joints_ := ik.numJoints }
      match ik.subChainJoints v1.link_name_ with
      | none => ((p.1, v1) :: rest, false)
      | some n =>
          let v2 := { v1 with num_inboard_joints_ := n,
                              jac_solver_ := ik.subChainSolver v1.link_name_ }
          let r := initLinksGo ik rest
          ((p.1, v2) :: r.1, r.2)

/-- `AvoidObstacles::init`.  `Constraint::init(ik)` (outside this file) is
modelled from the spec: it records the solver handle and leaves the
constraint valid unless binding fails.  If no link names were configured,
`link_names_` is filled with every link of the chain and a warning logged;
note the C++ adds nothing to the `links_` map here.  Then every `links_`
entry is bound; the first sub-chain failure marks the constraint invalid and
returns.  On success `link_models_` collects the chain's link models whose
names are in `link_names_`. -/
def init (ik : ChainInfo) (c : AvoidObstacles) : AvoidObstacles × List String :=
  let c1 := { c with valid_ := true }
  let defaulted := c1.link_names_.isEmpty
  let c2 := if defaulted then { c1 with link_names_ := ik.linkNames } else c1
  let warns := if defaulted then [noLinksWarn] else []
  let r := initLinksGo ik c2.links_
  if r.2 then
    ({ c2 with links_ := r.1,
               link_models_ := ik.chainLinkModels.filter
                 (fun nm => c2.link_names_.contains nm) }, warns)
  else
    ({ c2 with links_ := r.1, valid_ := false }, warns)

/-- Modelled from the spec: `addAvoidanceLink` (declared in the header, not
in this repository's sources) registers a link under default parameters
unless one with that name is already present. -/
noncomputable def addAvoidanceLink (c : AvoidObstacles) (name : String) :
    AvoidObstacles :=
  match mapFind name c.links_ with
  | some _ => c
  | none =>
      { c with links_ := c.links_ ++ [(name, LinkAvoidance.mkDefault name)],
               link_names_ := c.link_names_ ++ [name] }

/-- Modelled from the spec: `setAmplitude` mutates the named entry. -/
def setAmplitude (c : AvoidObstacles) (name : String) (v : ℝ) : AvoidObstacles :=
  { c with links_ := mapUpdate name (fun l => { l with amplitude_ := v }) c.links_ }

/-- Modelled from the spec: `setMinDistance` mutates the named entry. -/
def setMinDistance (c : AvoidObstacles) (name : String) (v : ℝ) : AvoidObstacles :=
  { c with links_ := mapUpdate name (fun l => { l with min_distance_ := v }) c.links_ }

/-- Modelled from the spec: `setAvoidanceDistance` mutates the named entry. -/
def setAvoidanceDistance (c : AvoidObstacles) (name : String) (v : ℝ) :
    AvoidObstacles :=
  { c with links_ := mapUpdate name (fun l => { l with avoidance_distance_ := v }) c.links_ }

/-- Modelled from the spec: `setWeight` mutates the named entry. -/
def setWeight (c : AvoidObstacles) (name : String) (v : ℝ) : AvoidObstacles :=
  { c with links_ := mapUpdate name (fun l => { l with weight_ := v }) c.links_ }

end AvoidObstacles

/-- The `XmlRpc` constraint parameters `loadParameters` can read: each field
is `none` when `getParam` fails for it. -/
structure ConstraintXml where
  link_names : Option (List String)
  amplitude : Option (List ℝ)
  minimum_distance : Option (List ℝ)
  avoidance_distance : Option (List ℝ)
  weight : Option (List ℝ)

/-- Warning logged when the `link_names` member cannot be retrieved. -/
def linkNamesMissingWarn : String :=
  "Abstacle Avoidance: Unable to retrieving link_names member, default parameter will be used."

/-- Warning logged when `amplitude` has a different size than `link_names`. -/
def ampMismatchWarn : String :=
  "Abstacle Avoidance: amplitude memebr must be same size array as link_names member, default parameters will be used."

/-- Warning logged when the `amplitude` member cannot be retrieved. -/
def ampMissingWarn : String :=
  "Abstacle Avoidance: Unable to retrieving amplitude member, default parameter will be used."

/-- Warning logged when `minimum_distance` has a different size than `link_names`. -/
def minimumDistanceMismatchWarn : String :=
  "Abstacle Avoidance: minimum_distance memebr must be same size array as link_names member, default parameters will be used."

/-- Warning logged when the `minimum_distance` member cannot be retrieved. -/
def minimumDistanceMissingWarn : String :=
  "Abstacle Avoidance: Unable to retrieving minimum_distance member, default parameter will be used."

/-- Warning logged when `avoidance_distance` has a different size than `link_names`. -/
def avoidanceDistanceMismatchWarn : String :=
  "Abstacle Avoidance: avoidance_distance memebr must be same size array as link_names member, default parameters will be used."

/-- Warning logged when the `avoidance_distance` member cannot be retrieved. -/
def avoidanceDistanceMissingWarn : String :=
  "Abstacle Avoidance: Unable to retrieving avoidance_distance member, default parameter will be used."

/-- Warning logged when `weight` has a different size than `link_names`. -/
def weightMismatchWarn : String :=
  "Abstacle Avoidance: weight memebr must be same size array as link_names member, default parameters will be used."

/-- Warning logged when the `weight` member cannot be retrieved. -/
def weightMissingWarn : String :=
  "Abstacle Avoidance: Unable to retrieving weight member, default parameter will be used."

/-- The parameter array a per-link loop iteration reads, after the size
check of `loadParameters`: absent (`getParam` false) or size-mismatched
(`.clear()`) arrays become empty, a matching array is kept. -/
def selArr (names : List String) (arr : Option (List ℝ)) : List ℝ :=
  match arr with
  | some a => if names.length ≠ a.length then [] else a
  | none => []

/-- The warnings the size check of one parameter array logs. -/
def sizeWarnings (names : List String) (arr : Option (List ℝ))
    (mismatchW missingW : String) : List String :=
  match arr with
  | some a => if names.length ≠ a.length then [mismatchW] else []
  | none => [missingW]

namespace AvoidObstacles

/-- One iteration of the `for (int i=0; i<link_names.size(); ++i)` loop of
`loadParameters`: `addAvoidanceLink(link_names[i])`, then each non-empty
parameter array writes its i-th entry through the corresponding setter. -/
noncomputable def loadStep (name : String) (i : ℕ)
    (amplitude minimum_distance avoidance_distance weight : List ℝ)
    (c : AvoidObstacles) : AvoidObstacles :=
  let c1 := c.addAvoidanceLink name
  let c2 := if amplitude.isEmpty then c1 else c1.setAmplitude name (amplitude.getD i 0)
  let c3 := if minimum_distance.isEmpty then c2 else
    c2.setMinDistance name (minimum_distance.getD i 0)
  let c4 := if avoidance_distance.isEmpty then c3 else
    c3.setAvoidanceDistance name (avoidance_distance.getD i 0)
  if weight.isEmpty then c4 else c4.setWeight name (weight.getD i 0)

/-- The whole per-link loop of `loadParameters`, indexed from `i`. -/
noncomputable def loadLoop
    (amplitude minimum_distance avoidance_distance weight : List ℝ) :
    List String → ℕ → AvoidObstacles → AvoidObstacles
  | [], _, c => c
  | name :: rest, i, c =>
      loadLoop amplitude minimum_distance avoidance_distance weight rest (i + 1)
        (loadStep name i amplitude minimum_distance avoidance_distance weight c)

/-- `AvoidObstacles::loadParameters`, returning the mutated constraint and
the list of logged warnings.  Without a `link_names` member nothing is
loaded; otherwise each of the four parameter arrays is kept only when its
size equals the `link_names` size (a present but mismatched array is cleared
with a warning, an absent one warns), and the per-link loop applies the
surviving arrays. -/
noncomputable def loadParameters (c : AvoidObstacles) (xml : ConstraintXml) :
    AvoidObstacles × List String :=
  match xml.link_names with
  | none => (c, [linkNamesMissingWarn])
  | some link_names =>
      (loadLoop (selArr link_names xml.amplitude)
        (selArr link_names xml.minimum_distance)
        (selArr link_names xml.avoidance_distance)
        (selArr link_names xml.weight) link_names 0 c,
       sizeWarnings link_names xml.amplitude ampMismatchWarn ampMissingWarn ++
       sizeWarnings link_names xml.minimum_distance minimumDistanceMismatchWarn
         minimumDistanceMissingWarn ++
       sizeWarnings link_names xml.avoidance_distance avoidanceDistanceMismatchWarn
         avoidanceDistanceMissingWarn ++
       sizeWarnings link_names xml.weight weightMismatchWarn weightMissingWarn)

end AvoidObstacles

/-- The per-link configuration the loop of `loadParameters` leaves for the
link at index `i` of the link-name list, given the four surviving parameter
arrays: an empty (absent or cleared) array leaves the registration default
in place, a surviving one is applied at index `i`. -/
noncomputable def loadedLink (name : String) (i : ℕ)
    (amplitude minimum_distance avoidance_distance weight : List ℝ) :
    LinkAvoidance :=
  { LinkAvoidance.mkDefault name with
    amplitude_ := if amplitude.isEmpty then DEFAULT_AMPLITUDE else amplitude.getD i 0
    min_distance_ := if minimum_distance.isEmpty then DEFAULT_MIN_DISTANCE else
      minimum_distance.getD i 0
    avoidance_distance_ := if avoidance_distance.isEmpty then
      DEFAULT_AVOIDANCE_DISTANCE else avoidance_distance.getD i 0
    weight_ := if weight.isEmpty then DEFAULT_WEIGHT else weight.getD i 0 }

/-- Distance info with distance 1/20, used as a concrete snapshot entry. -/
noncomputable def exDi : DistanceInfo :=
  { distance := 1 / 20, link_point := ![0, 0, 1 / 2], avoidance_vector := ![1, 0, 0] }

/-- Distance info with distance 0. -/
noncomputable def exDi0 : DistanceInfo :=
  { distance := 0, link_point := ![0, 0, 1 / 2], avoidance_vector := ![1, 0, 0] }

/-- Distance info with distance 1/10. -/
noncomputable def exDi2 : DistanceInfo :=
  { distance := 1 / 10, link_point := ![0, 0, 1 / 2], avoidance_vector := ![1, 0, 0] }

/-- A concrete bound link configuration: 3 robot joints, 2 inboard joints,
default parameters, a trivial sub-chain solver. -/
noncomputable def exLink : LinkAvoidance :=
  { weight_ := 1, min_distance_ := 1 / 10, avoidance_distance_ := 3 / 10,
    amplitude_ := 3 / 10, num_robot_joints_ := 3, num_inboard_joints_ := 2,
    jac_solver_ := fun _ _ _ => 0, link_name_ := "link_2" }

/-- A snapshot with no proximity entry at all. -/
def exEmptyCdata : AvoidObstaclesData :=
  { state_joints := fun _ => 0, distance_info_map_ := fun _ => none }

/-- A snapshot whose map holds `exDi` for link "link_2". -/
noncomputable def exCdata : AvoidObstaclesData :=
  { state_joints := fun _ => 0,
    distance_info_map_ := fun n => if n = "link_2" then some exDi else none }

/-- A snapshot whose map holds `exDi0` (distance 0) for link "link_2". -/
noncomputable def exCdata0 : AvoidObstaclesData :=
  { state_joints := fun _ => 0,
    distance_info_map_ := fun n => if n = "link_2" then some exDi0 else none }

/-- A snapshot whose map holds `exDi2` (distance 1/10) for link "link_2". -/
noncomputable def exCdata2 : AvoidObstaclesData :=
  { state_joints := fun _ => 0,
    distance_info_map_ := fun n => if n = "link_2" then some exDi2 else none }

/-- Same proximity map as `exCdata` but joint values that differ from
`exCdata`'s only at indices at or past `exLink.num_inboard_joints_`. -/
noncomputable def exCdataJ : AvoidObstaclesData :=
  { state_joints := fun i => if i < 2 then 0 else 5,
    distance_info_map_ := exCdata.distance_info_map_ }

/-- A two-link chain whose every sub-chain resolves with one joint. -/
def exIK : ChainInfo :=
  { linkNames := ["a", "b"], numJoints := 2, subChainJoints := fun _ => some 1,
    subChainSolver := fun _ => fun _ _ _ => 0, chainLinkModels := ["a", "b"] }

/-- A freshly constructed constraint: nothing configured. -/
def exC0 : AvoidObstacles :=
  { link_names_ := [], links_ := [], link_models_ := [], valid_ := false }

/-- A snapshot with proximity entries for both chain links "a" and "b". -/
noncomputable def exCdataAB : AvoidObstaclesData :=
  { state_joints := fun _ => 0,
    distance_info_map_ := fun n => if n = "a" ∨ n = "b" then some exDi else none }

/-- A constraint marked invalid (as after a failed `init`) that still holds
one configured link. -/
noncomputable def exInvalid : AvoidObstacles :=
  { link_names_ := ["link_2"], links_ := [("link_2", exLink)],
    link_models_ := [], valid_ := false }

/-- Concrete parameters for the loading witness: two links, a mismatched
`amplitude` array (length 1), a matching `minimum_distance` array, no
`avoidance_distance`, a matching `weight` array. -/
noncomputable def exXml : ConstraintXml :=
  { link_names := some ["a", "b"], amplitude := some [5],
    minimum_distance := some [2, 3], avoidance_distance := none,
    weight := some [7, 8] }

open AvoidObstacles

theorem calcError_length_one (uninit : ℝ) (cdata : AvoidObstaclesData)
    (link : LinkAvoidance) :
    (calcError uninit cdata link).length = 1 := by
  rcases h : cdata.distance_info_map_ link.link_name_ with _ | di <;>
    simp [calcError, h]

theorem calcJacobianRow_length (cdata : AvoidObstaclesData)
    (link : LinkAvoidance) :
    (calcJacobianRow cdata link).length = link.num_robot_joints_ := by
  rcases h : cdata.distance_info_map_ link.link_name_ with _ | di <;>
    simp [calcJacobianRow, h]

theorem evalFold_lengths (uninit : ℝ) (cdata : AvoidObstaclesData)
    (ls : List (String × LinkAvoidance)) (acc : ConstraintResults) :
    (ls.foldl (evalStep uninit cdata) acc).error.length
        = acc.error.length + ls.length ∧
    (ls.foldl (evalStep uninit cdata) acc).jacobian.length
        = acc.jacobian.length + ls.length := by
  induction ls generalizing acc with
  | nil => simp
  | cons p rest ih =>
      rcases ih (evalStep uninit cdata acc p) with ⟨h1, h2⟩
      refine ⟨?_, ?_⟩
      · rw [List.foldl_cons, h1]
        simp [evalStep, ConstraintResults.append, calcError_length_one]
        omega
      · rw [List.foldl_cons, h2]
        simp [evalStep, ConstraintResults.append, calcJacobian]
        omega

/-- C1: for a configured link with a proximity entry of distance d, calcError
returns the single scalar amplitude / (1 + exp(d / (avoidanceDistance /
(ZERO_POINT + SHIFT)) - SHIFT)) with ZERO_POINT = 10 and SHIFT = 5, and at
d = 0 that error is amplitude / (1 + exp (-5)). -/
theorem avoidObstacles_calcError_formula
    (uninit : ℝ) (cdata : AvoidObstaclesData) (link : LinkAvoidance)
    (di : DistanceInfo) (hav : 0 < link.avoidance_distance_)
    (h : cdata.distance_info_map_ link.link_name_ = some di) :
    calcError uninit cdata link =
      [link.amplitude_ /
        (1 + Real.exp (di.distance / (link.avoidance_distance_ / (10 + 5)) - 5))] ∧
    (di.distance = 0 →
      calcError uninit cdata link = [link.amplitude_ / (1 + Real.exp (-5))]) := by
  have hmain : calcError uninit cdata link =
      [link.amplitude_ /
        (1 + Real.exp (di.distance / (link.avoidance_distance_ / (10 + 5)) - 5))] := by
    simp only [calcError, h, DEFAULT_ZERO_POINT, DEFAULT_SHIFT]
  refine ⟨hmain, fun h0 => ?_⟩
  rw [hmain, h0]
  norm_num

/-- C1 witness: the formula at a concrete snapshot whose entry has d = 0. -/
theorem avoidObstacles_calcError_formula_witness :
    (0 : ℝ) < exLink.avoidance_distance_ ∧
    exCdata0.distance_info_map_ exLink.link_name_ = some exDi0 ∧
    calcError 0 exCdata0 exLink = [exLink.amplitude_ / (1 + Real.exp (-5))] := by
  have hav : (0 : ℝ) < exLink.avoidance_distance_ := by norm_num [exLink]
  have h : exCdata0.distance_info_map_ exLink.link_name_ = some exDi0 := by
    simp [exCdata0, exLink]
  exact ⟨hav, h,
    (avoidObstacles_calcError_formula 0 exCdata0 exLink exDi0 hav h).2 rfl⟩

/-- C2: checkStatus is false exactly when a proximity entry exists for the
link and its distance is strictly below the link's minimum distance; in
every other case it is true. -/
theorem avoidObstacles_checkStatus_false_iff
    (cdata : AvoidObstaclesData) (link : LinkAvoidance) :
    checkStatus cdata link = false ↔
      ∃ di, cdata.distance_info_map_ link.link_name_ = some di ∧
        di.distance < link.min_distance_ := by
  unfold checkStatus
  rcases h : cdata.distance_info_map_ link.link_name_ with _ | di
  · simp
  · by_cases hd : di.distance < link.min_distance_ <;> simp [hd]

/-- C3 (code bug): for a configured link with no proximity entry, the
Jacobian row is the zero row of length num_robot_joints_ and the status is
true, but the error contribution is NOT 0: calcError returns the resized
Eigen vector without ever writing it, so the single coefficient keeps its
indeterminate heap content (here 1), while the claim requires 0. -/
theorem avoidObstacles_missing_proximity_error_not_zero :
    calcError 1 exEmptyCdata exLink = [1] ∧ (1 : ℝ) ≠ 0 ∧
    calcJacobian exEmptyCdata exLink = [List.replicate 3 0] ∧
    checkStatus exEmptyCdata exLink = true :=
  ⟨rfl, one_ne_zero, rfl, rfl⟩

/-- C10: calcError always has exactly one entry, calcJacobian is always a
single row of num_robot_joints_ columns, and evalConstraint stacks exactly
one error scalar and one Jacobian row per configured link. -/
theorem avoidObstacles_output_dimensions
    (uninit : ℝ) (cdata : AvoidObstaclesData) (link : LinkAvoidance)
    (c : AvoidObstacles) :
    (calcError uninit cdata link).length = 1 ∧
    calcJacobian cdata link = [calcJacobianRow cdata link] ∧
    (calcJacobianRow cdata link).length = link.num_robot_joints_ ∧
    (evalConstraint uninit cdata c).error.length = c.links_.length ∧
    (evalConstraint uninit cdata c).jacobian.length = c.links_.length := by
  rcases evalFold_lengths uninit cdata c.links_ ConstraintResults.empty with ⟨h1, h2⟩
  exact ⟨calcError_length_one uninit cdata link, rfl,
    calcJacobianRow_length cdata link,
    by simpa [evalConstraint, ConstraintResults.empty] using h1,
    by simpa [evalConstraint, ConstraintResults.empty] using h2⟩

theorem getD_range_map (f : ℕ → ℝ) (n j : ℕ) :
    ((List.range n).map f).getD j 0 = if j < n then f j else 0 := by
  by_cases h : j < n
  · rw [List.getD_eq_getElem?_getD, List.getElem?_map, List.getElem?_range h]
    simp [h]
  · rw [List.getD_eq_getElem?_getD, List.getElem?_map,
      List.getElem?_eq_none (by simpa using not_lt.1 h)]
    simp [h]

theorem getD_replicate_zero (n j : ℕ) :
    (List.replicate n (0 : ℝ)).getD j 0 = 0 := by
  rw [List.getD_eq_getElem?_getD, List.getElem?_replicate]
  split <;> simp

theorem calcError_eq (uninit : ℝ) (cdata : AvoidObstaclesData)
    (link : LinkAvoidance) (di : DistanceInfo)
    (h : cdata.distance_info_map_ link.link_name_ = some di) :
    calcError uninit cdata link =
      [link.amplitude_ /
        (1 + Real.exp (di.distance /
          (link.avoidance_distance_ / (DEFAULT_ZERO_POINT + DEFAULT_SHIFT)) -
          DEFAULT_SHIFT))] := by
  simp only [calcError, h]

/-- C4: for every snapshot the Jacobian row has num_robot_joints_ columns
and every column at or past num_inboard_joints_ is exactly 0; with a
proximity entry, the written columns are computed from the first
num_inboard_joints_ entries of the joint snapshot only (two snapshots with
the same distance info that agree on those joints give the same row). -/
theorem avoidObstacles_calcJacobian_row_structure
    (cdata : AvoidObstaclesData) (link : LinkAvoidance) :
    (calcJacobianRow cdata link).length = link.num_robot_joints_ ∧
    (∀ j, link.num_inboard_joints_ ≤ j →
      (calcJacobianRow cdata link).getD j 0 = 0) ∧
    (∀ cdata2 : AvoidObstaclesData,
      cdata2.distance_info_map_ = cdata.distance_info_map_ →
      (∀ i, i < link.num_inboard_joints_ →
        cdata2.state_joints i = cdata.state_joints i) →
      calcJacobianRow cdata2 link = calcJacobianRow cdata link) := by
  refine ⟨calcJacobianRow_length cdata link, ?_, ?_⟩
  · intro j hj
    rcases h : cdata.distance_info_map_ link.link_name_ with _ | di
    · simp [calcJacobianRow, h, getD_replicate_zero]
    · simp only [calcJacobianRow, h]
      rw [getD_range_map]
      split_ifs with h1 h2
      · exact absurd h2 (not_lt.2 hj)
      · rfl
      · rfl
  · intro cdata2 hmap hjoints
    have harr : (fun i => if i < link.num_inboard_joints_ then
          cdata2.state_joints i else 0)
        = (fun i => if i < link.num_inboard_joints_ then
          cdata.state_joints i else 0) := by
      funext i
      by_cases hi : i < link.num_inboard_joints_
      · simp [hi, hjoints i hi]
      · simp [hi]
    simp only [calcJacobianRow, hmap]
    rcases h : cdata.distance_info_map_ link.link_name_ with _ | di
    · rfl
    · rw [harr]

/-- C4 witness: at a concrete bound link and snapshot, the row has 3 columns,
the column at index 2 (= num_inboard_joints_) is 0, and a snapshot
differing only in joints at indices ≥ 2 yields the same row. -/
theorem avoidObstacles_calcJacobian_row_structure_witness :
    (calcJacobianRow exCdata exLink).length = exLink.num_robot_joints_ ∧
    (calcJacobianRow exCdata exLink).getD 2 0 = 0 ∧
    calcJacobianRow exCdataJ exLink = calcJacobianRow exCdata exLink := by
  have h := avoidObstacles_calcJacobian_row_structure exCdata exLink
  refine ⟨h.1, h.2.1 2 (by norm_num [exLink]), ?_⟩
  refine h.2.2 exCdataJ rfl ?_
  intro i hi
  have hi2 : i < 2 := by simpa [exLink] using hi
  simp [exCdataJ, exCdata, hi2]

/-- C7: with positive amplitude and avoidance distance, the calcError value
is monotone non-increasing in the proximity distance: a snapshot with the
larger distance yields an error no larger than one with the smaller. -/
theorem avoidObstacles_calcError_antitone
    (uninit : ℝ) (link : LinkAvoidance) (c1 c2 : AvoidObstaclesData)
    (di1 di2 : DistanceInfo)
    (ha : 0 < link.amplitude_) (hav : 0 < link.avoidance_distance_)
    (h1 : c1.distance_info_map_ link.link_name_ = some di1)
    (h2 : c2.distance_info_map_ link.link_name_ = some di2)
    (hd : di1.distance < di2.distance) :
    (calcError uninit c2 link).getD 0 0 ≤ (calcError uninit c1 link).getD 0 0 := by
  rw [calcError_eq uninit c1 link di1 h1, calcError_eq uninit c2 link di2 h2]
  simp only [List.getD_cons_zero]
  have hs : 0 < link.avoidance_distance_ / (DEFAULT_ZERO_POINT + DEFAULT_SHIFT) := by
    unfold DEFAULT_ZERO_POINT DEFAULT_SHIFT
    positivity
  have hx : di1.distance / (link.avoidance_distance_ /
        (DEFAULT_ZERO_POINT + DEFAULT_SHIFT)) - DEFAULT_SHIFT ≤
      di2.distance / (link.avoidance_distance_ /
        (DEFAULT_ZERO_POINT + DEFAULT_SHIFT)) - DEFAULT_SHIFT :=
    sub_le_sub_right ((div_le_div_iff_of_pos_right hs).2 hd.le) DEFAULT_SHIFT
  gcongr

/-- C7 witness: distances 1/20 < 1/10 at a concrete link. -/
theorem avoidObstacles_calcError_antitone_witness :
    (0 : ℝ) < exLink.amplitude_ ∧ (0 : ℝ) < exLink.avoidance_distance_ ∧
    exCdata.distance_info_map_ exLink.link_name_ = some exDi ∧
    exCdata2.distance_info_map_ exLink.link_name_ = some exDi2 ∧
    exDi.distance < exDi2.distance ∧
    (calcError 0 exCdata2 exLink).getD 0 0 ≤ (calcError 0 exCdata exLink).getD 0 0 := by
  have ha : (0 : ℝ) < exLink.amplitude_ := by norm_num [exLink]
  have hav : (0 : ℝ) < exLink.avoidance_distance_ := by norm_num [exLink]
  have h1 : exCdata.distance_info_map_ exLink.link_name_ = some exDi := by
    simp [exCdata, exLink]
  have h2 : exCdata2.distance_info_map_ exLink.link_name_ = some exDi2 := by
    simp [exCdata2, exLink]
  have hd : exDi.distance < exDi2.distance := by norm_num [exDi, exDi2]
  exact ⟨ha, hav, h1, h2, hd,
    avoidObstacles_calcError_antitone 0 exLink exCdata exCdata2 exDi exDi2
      ha hav h1 h2 hd⟩

/-- C8: with positive amplitude and avoidance distance and a proximity entry
of non-negative distance, the calcError value lies strictly between 0 and
the amplitude. -/
theorem avoidObstacles_calcError_strict_bounds
    (uninit : ℝ) (cdata : AvoidObstaclesData) (link : LinkAvoidance)
    (di : DistanceInfo)
    (ha : 0 < link.amplitude_) (hav : 0 < link.avoidance_distance_)
    (hd0 : 0 ≤ di.distance)
    (h : cdata.distance_info_map_ link.link_name_ = some di) :
    0 < (calcError uninit cdata link).getD 0 0 ∧
    (calcError uninit cdata link).getD 0 0 < link.amplitude_ := by
  rw [calcError_eq uninit cdata link di h]
  simp only [List.getD_cons_zero]
  constructor
  · positivity
  · rw [div_lt_iff₀ (by positivity)]
    exact (lt_mul_iff_one_lt_right ha).2
      (lt_add_of_pos_right 1 (Real.exp_pos _))

/-- C8 witness: the bounds at a concrete link and snapshot (d = 1/20). -/
theorem avoidObstacles_calcError_strict_bounds_witness :
    (0 : ℝ) < exLink.amplitude_ ∧ (0 : ℝ) < exLink.avoidance_distance_ ∧
    (0 : ℝ) ≤ exDi.distance ∧
    exCdata.distance_info_map_ exLink.link_name_ = some exDi ∧
    (0 < (calcError 0 exCdata exLink).getD 0 0 ∧
      (calcError 0 exCdata exLink).getD 0 0 < exLink.amplitude_) := by
  have ha : (0 : ℝ) < exLink.amplitude_ := by norm_num [exLink]
  have hav : (0 : ℝ) < exLink.avoidance_distance_ := by norm_num [exLink]
  have hd0 : (0 : ℝ) ≤ exDi.distance := by norm_num [exDi]
  have h : exCdata.distance_info_map_ exLink.link_name_ = some exDi := by
    simp [exCdata, exLink]
  exact ⟨ha, hav, hd0, h,
    avoidObstacles_calcError_strict_bounds 0 exCdata exLink exDi ha hav hd0 h⟩

/-- C5 (code bug): binding a constraint with no configured links fills
link_names_ with every chain link and warns, but registers nothing in the
links_ map, so a subsequent evalConstraint — even on a snapshot holding
proximity data for both chain links — returns an empty contribution instead
of one per link of the chain. -/
theorem avoidObstacles_init_default_links_unmonitored :
    (init exIK exC0).1.link_names_ = ["a", "b"] ∧
    noLinksWarn ∈ (init exIK exC0).2 ∧
    exIK.linkNames.length = 2 ∧
    (evalConstraint 0 exCdataAB (init exIK exC0).1).error = [] ∧
    (evalConstraint 0 exCdataAB (init exIK exC0).1).jacobian = [] := by
  refine ⟨rfl, ?_, rfl, rfl, rfl⟩
  simp [init, exIK, exC0, initLinksGo]

/-- C6 (code bug): evalConstraint never consults the validity flag: on a
constraint marked invalid by a failed init it still returns an ordinary
per-link contribution (here one error scalar, one zero row, status true),
identical to the output on the same constraint marked valid. -/
theorem avoidObstacles_evalConstraint_ignores_invalid :
    exInvalid.valid_ = false ∧
    evalConstraint 0 exEmptyCdata exInvalid =
      { error := [0], jacobian := [List.replicate 3 0], status := true } ∧
    evalConstraint 0 exEmptyCdata exInvalid =
      evalConstraint 0 exEmptyCdata { exInvalid with valid_ := true } :=
  ⟨rfl, rfl, rfl⟩

theorem mapFind_append_self {α : Type} (k : String) (v : α) :
    ∀ m : List (String × α), mapFind k m = none →
      mapFind k (m ++ [(k, v)]) = some v
  | [], _ => by simp [mapFind]
  | p :: rest, h => by
      by_cases hk : k = p.1
      · simp [mapFind, hk] at h
      · simp only [List.cons_append, mapFind, if_neg hk] at h ⊢
        exact mapFind_append_self k v rest h

theorem mapFind_append_other {α : Type} {k k2 : String} (hne : k ≠ k2) (v : α) :
    ∀ m : List (String × α), mapFind k (m ++ [(k2, v)]) = mapFind k m
  | [] => by simp [mapFind, hne]
  | p :: rest => by
      have ih := mapFind_append_other hne v rest
      by_cases hk : k = p.1 <;> simp [mapFind, hk, ih]

theorem mapFind_mapUpdate {α : Type} (k2 k : String) (f : α → α)
    (m : List (String × α)) :
    mapFind k2 (mapUpdate k f m) =
      if k2 = k then (mapFind k2 m).map f else mapFind k2 m := by
  induction m with
  | nil => simp [mapFind, mapUpdate]
  | cons p rest ih =>
      simp only [mapUpdate, List.map_cons] at ih ⊢
      by_cases h1 : p.1 = k
      · by_cases h2 : k2 = p.1
        · have h3 : k2 = k := h2.trans h1
          simp [mapFind, h1, h2, h3]
        · have h3 : ¬k2 = k := fun hk => h2 (hk.trans h1.symm)
          simp [mapFind, h1, h2, h3, ih]
      · by_cases h2 : k2 = p.1
        · have h3 : ¬k2 = k := fun hk => h1 ((h2.symm.trans hk).symm ▸ rfl)
          simp [mapFind, h1, h2, h3]
        · by_cases h4 : k2 = k
          · subst h4
            simp [mapFind, h1, h2, ih]
          · simp [mapFind, h1, h2, h4, ih]

theorem loadStep_links_other (k name : String) (hne : k ≠ name) (i : ℕ)
    (a b c d : List ℝ) (st : AvoidObstacles) :
    mapFind k (loadStep name i a b c d st).links_ = mapFind k st.links_ := by
  have h1 : mapFind k (st.addAvoidanceLink name).links_ = mapFind k st.links_ := by
    rcases hm : mapFind name st.links_ with _ | v
    · simp only [addAvoidanceLink, hm]
      exact mapFind_append_other hne _ st.links_
    · simp [addAvoidanceLink, hm]
  unfold loadStep
  by_cases ha : a.isEmpty <;> by_cases hb : b.isEmpty <;>
    by_cases hc : c.isEmpty <;> by_cases hd : d.isEmpty <;>
      simp [ha, hb, hc, hd, setAmplitude, setMinDistance, setAvoidanceDistance,
        setWeight, mapFind_mapUpdate, hne, h1]

theorem loadStep_links_self (name : String) (i : ℕ)
    (a b c d : List ℝ) (st : AvoidObstacles)
    (h : mapFind name st.links_ = none) :
    mapFind name (loadStep name i a b c d st).links_ =
      some (loadedLink name i a b c d) := by
  have h1 : mapFind name (st.addAvoidanceLink name).links_ =
      some (LinkAvoidance.mkDefault name) := by
    simp only [addAvoidanceLink, h]
    exact mapFind_append_self name _ st.links_ h
  unfold loadStep
  by_cases ha : a.isEmpty <;> by_cases hb : b.isEmpty <;>
    by_cases hc : c.isEmpty <;> by_cases hd : d.isEmpty <;>
      simp [ha, hb, hc, hd, setAmplitude, setMinDistance, setAvoidanceDistance,
        setWeight, mapFind_mapUpdate, h1, loadedLink, LinkAvoidance.mkDefault]

theorem loadLoop_preserve (a b c d : List ℝ) :
    ∀ (names : List String) (i : ℕ) (st : AvoidObstacles) (name : String),
      name ∉ names →
      mapFind name (loadLoop a b c d names i st).links_ = mapFind name st.links_
  | [], _, _, _, _ => rfl
  | n2 :: rest, i, st, name, hmem => by
      simp only [loadLoop]
      rw [loadLoop_preserve a b c d rest (i + 1) _ name
        (fun hm => hmem (List.mem_cons_of_mem n2 hm))]
      exact loadStep_links_other name n2
        (fun he => hmem (he ▸ List.mem_cons_self n2 rest)) i a b c d st

theorem loadLoop_find (a b c d : List ℝ) :
    ∀ (names : List String) (i : ℕ) (st : AvoidObstacles), names.Nodup →
      ∀ j : ℕ, j < names.length →
        mapFind (names.getD j "") st.links_ = none →
        mapFind (names.getD j "") (loadLoop a b c d names i st).links_ =
          some (loadedLink (names.getD j "") (i + j) a b c d)
  | [], _, _, _, j, hj, _ => absurd hj (by simp)
  | n2 :: rest, i, st, hnd, 0, hj, hnone => by
      simp only [List.getD_cons_zero] at hnone ⊢
      simp only [loadLoop]
      rw [loadLoop_preserve a b c d rest (i + 1) _ n2 (List.nodup_cons.1 hnd).1]
      rw [loadStep_links_self n2 i a b c d st hnone, Nat.add_zero]
  | n2 :: rest, i, st, hnd, j + 1, hj, hnone => by
      simp only [List.getD_cons_succ] at hnone ⊢
      simp only [loadLoop]
      have hj2 : j < rest.length := by
        simpa using Nat.lt_of_succ_lt_succ hj
      have hne : rest.getD j "" ≠ n2 := by
        intro he
        refine (List.nodup_cons.1 hnd).1 ?_
        rw [← he, List.getD_eq_getElem _ _ hj2]
        exact List.getElem_mem hj2
      have hnone2 : mapFind (rest.getD j "")
          (loadStep n2 i a b c d st).links_ = none := by
        rw [loadStep_links_other _ n2 hne i a b c d st]
        exact hnone
      rw [loadLoop_find a b c d rest (i + 1)
        (loadStep n2 i a b c d st) (List.nodup_cons.1 hnd).2 j hj2 hnone2]
      have harith : i + 1 + j = i + (j + 1) := by omega
      rw [harith]

/-- C9: loading on a fresh constraint with a link-name list: a present but
size-mismatched parameter array logs its warning, and the link registered
for index j of the list carries, for each of the four parameters, the
array value at j when that array survived the size check and the default
otherwise — so one mismatched array falls back to defaults for every listed
link while the correctly sized arrays are applied unchanged. -/
theorem avoidObstacles_loadParameters_isolation
    (c0 : AvoidObstacles) (xml : ConstraintXml) (names : List String)
    (h0 : c0.links_ = []) (hn : xml.link_names = some names) (hnd : names.Nodup)
    (j : ℕ) (hj : j < names.length) :
    (∀ a, xml.amplitude = some a → a.length ≠ names.length →
      ampMismatchWarn ∈ (loadParameters c0 xml).2) ∧
    (∀ a, xml.minimum_distance = some a → a.length ≠ names.length →
      minimumDistanceMismatchWarn ∈ (loadParameters c0 xml).2) ∧
    (∀ a, xml.avoidance_distance = some a → a.length ≠ names.length →
      avoidanceDistanceMismatchWarn ∈ (loadParameters c0 xml).2) ∧
    (∀ a, xml.weight = some a → a.length ≠ names.length →
      weightMismatchWarn ∈ (loadParameters c0 xml).2) ∧
    mapFind (names.getD j "") (loadParameters c0 xml).1.links_ =
      some (loadedLink (names.getD j "") j (selArr names xml.amplitude)
        (selArr names xml.minimum_distance)
        (selArr names xml.avoidance_distance) (selArr names xml.weight)) := by
  refine ⟨?_, ?_, ?_, ?_, ?_⟩
  · intro a hx hlen
    simp [loadParameters, hn, sizeWarnings, hx, Ne.symm hlen]
  · intro a hx hlen
    simp [loadParameters, hn, sizeWarnings, hx, Ne.symm hlen]
  · intro a hx hlen
    simp [loadParameters, hn, sizeWarnings, hx, Ne.symm hlen]
  · intro a hx hlen
    simp [loadParameters, hn, sizeWarnings, hx, Ne.symm hlen]
  · have hfind := loadLoop_find (selArr names xml.amplitude)
      (selArr names xml.minimum_distance) (selArr names xml.avoidance_distance)
      (selArr names xml.weight) names 0 c0 hnd j hj (by rw [h0]; rfl)
    simp only [loadParameters, hn]
    simpa using hfind

/-- C9 witness: two links, a mismatched amplitude array (warned, defaults
kept) alongside matching minimum_distance and weight arrays (applied). -/
theorem avoidObstacles_loadParameters_isolation_witness :
    exC0.links_ = [] ∧ exXml.link_names = some ["a", "b"] ∧
    (["a", "b"] : List String).Nodup ∧
    (0 : ℕ) < (["a", "b"] : List String).length ∧
    exXml.amplitude = some [5] ∧ ([5] : List ℝ).length ≠ 2 ∧
    ampMismatchWarn ∈ (loadParameters exC0 exXml).2 ∧
    mapFind "a" (loadParameters exC0 exXml).1.links_ =
      some (loadedLink "a" 0 [] [2, 3] [] [7, 8]) := by
  have hnd : (["a", "b"] : List String).Nodup := by decide
  have hj : (0 : ℕ) < (["a", "b"] : List String).length := by decide
  have h := avoidObstacles_loadParameters_isolation exC0 exXml ["a", "b"]
    rfl rfl hnd 0 hj
  refine ⟨rfl, rfl, hnd, hj, rfl, by decide, ?_, ?_⟩
  · exact h.1 [5] rfl (by decide)
  · have h5 := h.2.2.2.2
    simpa [selArr, exXml] using h5
